import Mathlib

/-!
Verification of the gripper action controller
(`gripper_action_controller/gripper_action_controller.h`).

The repository ships the class declaration in the header; the member
function bodies live in `gripper_action_controller_impl.h`, which is not
part of the sources here.  Following the header's declarations and doc
comments, the behaviour of the member functions is modelled from the
specification (sections 4.1-4.6, 6, 7 of the design document).  Doubles
are modelled as rationals (`ℚ`), with an explicit `FloatVal` wrapper where
finiteness of an incoming value matters; ROS time stamps are modelled as
rational seconds.
-/

namespace GripperActionController

/-- The `Commands` struct from the header (lines 76-79): last commanded
position and max allowed effort, stored together so the realtime buffer
exchanges them wholesale. -/
structure Commands where
  position_ : ℚ
  max_effort_ : ℚ
deriving DecidableEq

/-- Status of a goal: ACTIVE or one of the three terminal statuses of the
action protocol. -/
inductive GoalStatus where
  | active
  | succeeded
  | canceled
  | aborted
deriving DecidableEq

/-- The `GripperCommand` action result payload: reached position, effort
applied, whether the goal tolerance was met, and whether the gripper
stalled. -/
structure GripperResult where
  position : ℚ
  effort : ℚ
  reached_goal : Bool
  stalled : Bool
deriving DecidableEq

/-- An accepted goal as tracked by the controller: an opaque correlation
token plus the originating command (target position, max effort).  A goal
is ACTIVE exactly while it occupies the controller's `rt_active_goal_`
slot; on its terminal transition it is detached from the slot and its
terminal notification is enqueued. -/
structure Goal where
  token : ℕ
  target_position_ : ℚ
  max_effort_ : ℚ
deriving DecidableEq

/-- A terminal notification handed to the non-realtime dispatcher:
correlation token, terminal status and result payload. -/
structure Notification where
  token : ℕ
  status : GoalStatus
  result : GripperResult
deriving DecidableEq

/-- A `double` arriving from the transport layer, which may be non-finite
(NaN or an infinity).  Finite values carry their rational model. -/
inductive FloatVal where
  | finite (val : ℚ)
  | nan
  | posInf
  | negInf
deriving DecidableEq

/-- `std::isfinite` on a modelled double. -/
def FloatVal.isFinite : FloatVal → Bool
  | .finite _ => true
  | _ => false

/-- The rational value of a finite modelled double (0 for non-finite
values, which every consumer rejects first). -/
def FloatVal.toRat : FloatVal → ℚ
  | .finite v => v
  | _ => 0

/-- The in-class initializer of `last_movement_time_` in the header
(lines 182-183): `rclcpp::Time(0, 0, RCL_ROS_TIME)`, i.e. time zero,
modelled as 0 seconds. -/
def initial_last_movement_time : ℚ := 0

/-- Controller state: the command slot (`command_`), the currently active
goal slot (`rt_active_goal_`), the stall reference time
(`last_movement_time_`), the queue of pending terminal notifications, and
the configuration parameters declared in the header (lines 186-189).
`last_movement_time_` defaults to the header's in-class initializer. -/
structure ControllerState where
  command_ : Commands
  rt_active_goal_ : Option Goal
  last_movement_time_ : ℚ := initial_last_movement_time
  notifications : List Notification
  stall_timeout_ : ℚ
  stall_velocity_threshold_ : ℚ
  default_max_effort_ : ℚ
  goal_tolerance_ : ℚ
deriving DecidableEq

/-- Configuration parameters loaded outside the core (spec section 6). -/
structure Config where
  stall_timeout_ : ℚ
  stall_velocity_threshold_ : ℚ
  default_max_effort_ : ℚ
  goal_tolerance_ : ℚ
deriving DecidableEq

/-- The controller state right after activation, before any goal has been
accepted: no active goal, no notification pending, and
`last_movement_time_` still at its in-class initializer value
(header lines 182-183). `c0` is the initial/hold command of the slot. -/
def initState (cfg : Config) (c0 : Commands) : ControllerState :=
  { command_ := c0
    rt_active_goal_ := none
    notifications := []
    stall_timeout_ := cfg.stall_timeout_
    stall_velocity_threshold_ := cfg.stall_velocity_threshold_
    default_max_effort_ := cfg.default_max_effort_
    goal_tolerance_ := cfg.goal_tolerance_ }

/-- Completion verdict of the per-cycle Success Evaluator. -/
inductive Verdict where
  | succeeded
  | inProgress
deriving DecidableEq

/-- Modelled from the spec (section 4.3): the Success Evaluator, the body
of `check_for_success` being absent from the sources.  Pure per-cycle
function: SUCCEEDED iff `|position_error| < goal_tolerance` (strict
comparison), otherwise IN_PROGRESS. -/
def successEvaluator (position_error goal_tolerance : ℚ) : Verdict :=
  if |position_error| < goal_tolerance then .succeeded else .inProgress

/-- Modelled from the spec (sections 4.3-4.6): the body of
`check_for_success` (declared at header lines 194-195) being absent from
the sources.  With an ACTIVE goal: if the error is strictly within the
tolerance, mark the goal succeeded (reached, not stalled), enqueue its
terminal notification and detach it, before any stall logic runs;
otherwise run the Stall Detector: if `|current_velocity|` exceeds the
threshold record movement now, else if the mechanism has been stationary
longer than the stall timeout report a terminal success with the stalled
flag.  The effort reported is the currently commanded max effort.  With no
ACTIVE goal the state is untouched. -/
def check_for_success (s : ControllerState) (time error_position
    current_position current_velocity : ℚ) : ControllerState :=
  match s.rt_active_goal_ with
  | none => s
  | some g =>
    if |error_position| < s.goal_tolerance_ then
      { s with
        rt_active_goal_ := none
        notifications := s.notifications ++
          [⟨g.token, .succeeded,
            ⟨current_position, s.command_.max_effort_, true, false⟩⟩] }
    else if |current_velocity| > s.stall_velocity_threshold_ then
      { s with last_movement_time_ := time }
    else if time - s.last_movement_time_ > s.stall_timeout_ then
      { s with
        rt_active_goal_ := none
        notifications := s.notifications ++
          [⟨g.token, .succeeded,
            ⟨current_position, s.command_.max_effort_, false, true⟩⟩] }
    else s

/-- Modelled from the spec (section 4.5): the per-cycle Control Cycle
Driver (`update`, declared at header line 104), the body being absent from
the sources.  Reads the command slot, computes the position error against
the commanded target, and runs success/stall evaluation for the active
goal. -/
def update (s : ControllerState) (time current_position
    current_velocity : ℚ) : ControllerState :=
  check_for_success s time (current_position - s.command_.position_)
    current_position current_velocity

/-- A new goal request as delivered by the transport: target position
(possibly non-finite), optional max effort and a correlation token. -/
structure GoalRequest where
  position : FloatVal
  max_effort : Option ℚ
  token : ℕ
deriving DecidableEq

/-- Intake response for a new goal request. -/
inductive GoalResponse where
  | accepted
  | rejected
deriving DecidableEq

/-- Intake response for a cancellation request. -/
inductive CancelResponse where
  | acknowledged
  | notFound
deriving DecidableEq

/-- Modelled from the spec (section 4.2): `preempt_active_goal` (declared
at header line 178), the body being absent from the sources.  If a goal is
ACTIVE, transition it to CANCELED: enqueue its terminal notification and
detach it from the tracker.  The spec leaves the result payload of a
canceled goal unspecified; the model reports the last commanded position
and effort, not reached and not stalled. -/
def preempt_active_goal (s : ControllerState) : ControllerState :=
  match s.rt_active_goal_ with
  | none => s
  | some g =>
    { s with
      rt_active_goal_ := none
      notifications := s.notifications ++
        [⟨g.token, .canceled,
          ⟨s.command_.position_, s.command_.max_effort_, false, false⟩⟩] }

/-- Modelled from the spec (sections 4.2 and 6): goal intake
(`goal_callback` and `accepted_callback`, declared at header lines 169-176),
the bodies being absent from the sources.  A non-finite target position is
rejected synchronously with no state change.  Otherwise any ACTIVE goal is
preempted (transitioned to CANCELED, notification enqueued) before the new
goal is installed as ACTIVE, `last_movement_time_` is reset to now, and
the command slot is written with the new target and max effort, the
configured `default_max_effort_` standing in when none is supplied. -/
def submit_goal (s : ControllerState) (req : GoalRequest) (now : ℚ) :
    ControllerState × GoalResponse :=
  if req.position.isFinite then
    let target := req.position.toRat
    let effort := req.max_effort.getD s.default_max_effort_
    let s1 := preempt_active_goal s
    ({ s1 with
        rt_active_goal_ := some ⟨req.token, target, effort⟩
        last_movement_time_ := now
        command_ := ⟨target, effort⟩ }, .accepted)
  else
    (s, .rejected)

/-- Modelled from the spec (sections 4.2 and 7): `set_hold_position`
(declared at header line 180), the body being absent from the sources.
Write the command slot with the currently observed position so the
mechanism holds in place; the effort is the configured default. -/
def set_hold_position (s : ControllerState) (current_position : ℚ) :
    ControllerState :=
  { s with command_ := ⟨current_position, s.default_max_effort_⟩ }

/-- Modelled from the spec (sections 4.2, 6 and 7): `cancel_callback`
(declared at header lines 173-174), the body being absent from the
sources.  Cancelling the ACTIVE goal transitions it to CANCELED, enqueues
its terminal notification and writes the command slot with the current
position (hold-in-place); cancelling any other goal is a no-op reported
as not-found. -/
def cancel_goal (s : ControllerState) (token : ℕ) (current_position : ℚ) :
    ControllerState × CancelResponse :=
  match s.rt_active_goal_ with
  | none => (s, .notFound)
  | some g =>
    if g.token = token then
      (set_hold_position
        { s with
          rt_active_goal_ := none
          notifications := s.notifications ++
            [⟨g.token, .canceled,
              ⟨current_position, s.default_max_effort_, false, false⟩⟩] }
        current_position, .acknowledged)
    else
      (s, .notFound)

/-- An externally observable event acting on the controller: a goal
submission, a cancellation request, or one realtime control cycle with
the observed position and velocity at that tick. -/
inductive Event where
  | submit (req : GoalRequest) (now : ℚ)
  | cancel (token : ℕ) (current_position : ℚ)
  | cycle (time current_position current_velocity : ℚ)
deriving DecidableEq

/-- One event's effect on the controller state. -/
def step (s : ControllerState) (e : Event) : ControllerState :=
  match e with
  | .submit req now => (submit_goal s req now).1
  | .cancel token pos => (cancel_goal s token pos).1
  | .cycle t p v => update s t p v

/-- Run a sequence of events from a state. -/
def run (s : ControllerState) (es : List Event) : ControllerState :=
  es.foldl step s

/-- Correlation tokens of all goal submissions in an event sequence. -/
def submittedTokens : List Event → List ℕ
  | [] => []
  | .submit req _ :: es => req.token :: submittedTokens es
  | .cancel _ _ :: es => submittedTokens es
  | .cycle _ _ _ :: es => submittedTokens es

/-- Correlation tokens of the accepted goal submissions (finite target
position) in an event sequence. -/
def acceptedTokens : List Event → List ℕ
  | [] => []
  | .submit req _ :: es =>
    if req.position.isFinite then req.token :: acceptedTokens es
    else acceptedTokens es
  | .cancel _ _ :: es => acceptedTokens es
  | .cycle _ _ _ :: es => acceptedTokens es

/-- Correlation tokens of the terminal notifications enqueued so far. -/
def notifTokens (s : ControllerState) : List ℕ :=
  s.notifications.map Notification.token

/-- Kind of a hardware interface of a joint. -/
inductive InterfaceKind where
  | position
  | velocity
  | effort
deriving DecidableEq

/-- A fully qualified joint interface, `<joint>/<kind>` in the C++ name
strings. -/
structure InterfaceName where
  joint : String
  kind : InterfaceKind
deriving DecidableEq

/-- `controller_interface::interface_configuration_type`. -/
inductive InterfaceConfigurationType where
  | all
  | individual
  | noneType
deriving DecidableEq

/-- `controller_interface::InterfaceConfiguration`: a configuration type
and the list of claimed interface names. -/
structure InterfaceConfiguration where
  type : InterfaceConfigurationType
  names : List InterfaceName
deriving DecidableEq

/-- Modelled from the spec (section 6) and the header doc comment (lines
87-93), the body being absent from the sources: the controller claims
exactly the position command interface of the controlled joint. -/
def command_interface_configuration (joint_name_ : String) :
    InterfaceConfiguration :=
  ⟨.individual, [⟨joint_name_, .position⟩]⟩

/-- Modelled from the spec (section 6) and the header doc comment (lines
95-101), the body being absent from the sources: the controller claims
the position and velocity state interfaces of the controlled joint. -/
def state_interface_configuration (joint_name_ : String) :
    InterfaceConfiguration :=
  ⟨.individual, [⟨joint_name_, .position⟩, ⟨joint_name_, .velocity⟩]⟩

/-- A concrete controller state with no ACTIVE goal, exercising the Stall
Detector claims on a cycle that has no goal to evaluate. -/
def c2StateNoGoal : ControllerState :=
  { command_ := ⟨0, 0⟩
    rt_active_goal_ := none
    last_movement_time_ := 0
    notifications := []
    stall_timeout_ := 1
    stall_velocity_threshold_ := 0
    default_max_effort_ := 0
    goal_tolerance_ := 1 }

/-- A concrete controller state with an ACTIVE goal (token 1, target 0)
whose stall reference time lies far in the past. -/
def c2StateStuck : ControllerState :=
  { command_ := ⟨0, 0⟩
    rt_active_goal_ := some ⟨1, 0, 0⟩
    last_movement_time_ := 0
    notifications := []
    stall_timeout_ := 1
    stall_velocity_threshold_ := 0
    default_max_effort_ := 0
    goal_tolerance_ := 1 }

/-- Goal-tracker invariant tying a controller state to the tokens
submitted (`subm`) and accepted (`acc`) so far: the enqueued terminal
notifications carry pairwise distinct tokens drawn from `subm`; the
ACTIVE goal's token is a submitted token not yet notified; and every
accepted token has either been notified or is the ACTIVE one. -/
def TrackerInv (s : ControllerState) (subm acc : List ℕ) : Prop :=
  (notifTokens s).Nodup ∧
  (∀ t ∈ notifTokens s, t ∈ subm) ∧
  (∀ g : Goal, s.rt_active_goal_ = some g →
    g.token ∈ subm ∧ g.token ∉ notifTokens s) ∧
  (∀ t ∈ acc, t ∈ notifTokens s ∨
    ∃ g : Goal, s.rt_active_goal_ = some g ∧ g.token = t)

/-- Unfolding of `check_for_success` on a state with an ACTIVE goal. -/
theorem check_for_success_active (s : ControllerState) (g : Goal)
    (time error_position current_position current_velocity : ℚ)
    (hg : s.rt_active_goal_ = some g) :
    check_for_success s time error_position current_position
        current_velocity =
      if |error_position| < s.goal_tolerance_ then
        { s with
          rt_active_goal_ := none
          notifications := s.notifications ++
            [⟨g.token, .succeeded,
              ⟨current_position, s.command_.max_effort_, true, false⟩⟩] }
      else if |current_velocity| > s.stall_velocity_threshold_ then
        { s with last_movement_time_ := time }
      else if time - s.last_movement_time_ > s.stall_timeout_ then
        { s with
          rt_active_goal_ := none
          notifications := s.notifications ++
            [⟨g.token, .succeeded,
              ⟨current_position, s.command_.max_effort_, false, true⟩⟩] }
      else s := by
  unfold check_for_success
  rw [hg]

/-- C1: with an ACTIVE goal, the evaluation cycle yields the SUCCEEDED
verdict (a terminal notification with `reached_goal = true`) exactly when
`|current_position - target_position| < goal_tolerance`, for every
velocity and every time, with `last_movement_time_` untouched (the stall
logic never runs on a within-tolerance cycle, even at the first
evaluation); when the error is not strictly within tolerance — in
particular when it equals the tolerance exactly — no `reached_goal`
notification is produced. -/
theorem success_iff_error_within_tolerance (s : ControllerState) (g : Goal)
    (time current_position current_velocity : ℚ)
    (hg : s.rt_active_goal_ = some g) :
    (|current_position - g.target_position_| < s.goal_tolerance_ →
      check_for_success s time (current_position - g.target_position_)
          current_position current_velocity =
        { s with
          rt_active_goal_ := none
          notifications := s.notifications ++
            [⟨g.token, .succeeded,
              ⟨current_position, s.command_.max_effort_, true, false⟩⟩] }) ∧
    (¬ |current_position - g.target_position_| < s.goal_tolerance_ →
      ∀ n ∈ (check_for_success s time
          (current_position - g.target_position_) current_position
          current_velocity).notifications,
        n ∈ s.notifications ∨ n.result.reached_goal = false) ∧
    (|current_position - g.target_position_| = s.goal_tolerance_ →
      ∀ n ∈ (check_for_success s time
          (current_position - g.target_position_) current_position
          current_velocity).notifications,
        n ∈ s.notifications ∨ n.result.reached_goal = false) := by
  have key : ¬ |current_position - g.target_position_| < s.goal_tolerance_ →
      ∀ n ∈ (check_for_success s time
          (current_position - g.target_position_) current_position
          current_velocity).notifications,
        n ∈ s.notifications ∨ n.result.reached_goal = false := by
    intro h n hn
    rw [check_for_success_active s g time
      (current_position - g.target_position_) current_position
      current_velocity hg, if_neg h] at hn
    by_cases h1 : |current_velocity| > s.stall_velocity_threshold_
    · rw [if_pos h1] at hn
      exact Or.inl hn
    · rw [if_neg h1] at hn
      by_cases h2 : time - s.last_movement_time_ > s.stall_timeout_
      · rw [if_pos h2] at hn
        simp only [List.mem_append, List.mem_singleton] at hn
        rcases hn with hn | hn
        · exact Or.inl hn
        · subst hn
          exact Or.inr rfl
      · rw [if_neg h2] at hn
        exact Or.inl hn
  refine ⟨fun h => ?_, key, fun heq => key ?_⟩
  · rw [check_for_success_active s g time
      (current_position - g.target_position_) current_position
      current_velocity hg, if_pos h]
  · rw [heq]
    exact lt_irrefl _

/-- Closed witness for C1: a state one hundredth away from the target
with tolerance one tenth succeeds on the spot, and at error exactly equal
to the tolerance no `reached_goal` notification appears. -/
theorem success_iff_error_within_tolerance_witness :
    (c2StateStuck.rt_active_goal_ = some ⟨1, 0, 0⟩ ∧
      |(1 / 100 : ℚ) - (0 : ℚ)| < c2StateStuck.goal_tolerance_) ∧
    check_for_success c2StateStuck 5 ((1 / 100 : ℚ) - (0 : ℚ)) (1 / 100) 0 =
      { c2StateStuck with
        rt_active_goal_ := none
        notifications :=
          [⟨1, .succeeded, ⟨1 / 100, c2StateStuck.command_.max_effort_,
            true, false⟩⟩] } := by
  refine ⟨⟨rfl, by norm_num [c2StateStuck, abs_lt]⟩, ?_⟩
  exact (success_iff_error_within_tolerance c2StateStuck ⟨1, 0, 0⟩ 5
    (1 / 100) 0 rfl).1 (by norm_num [c2StateStuck, abs_lt])

/-- Counterexample to C2 as stated.  First input: a control cycle with no
ACTIVE goal and `|current_velocity| = 3` above the threshold 0, after
which `last_movement_time_` still holds 0, not the cycle time 7.  Second
input: a cycle with an ACTIVE goal out of tolerance, velocity above the
threshold and `now - last_movement_time > stall_timeout` on entry, after
which the goal is still ACTIVE and no terminal notification exists. -/
theorem stall_detector_claim_counterexample :
    (|(3 : ℚ)| > c2StateNoGoal.stall_velocity_threshold_ ∧
      (update c2StateNoGoal 7 0 3).last_movement_time_ ≠ 7) ∧
    (c2StateStuck.rt_active_goal_ = some ⟨1, 0, 0⟩ ∧
      ¬ |(10 : ℚ) - (0 : ℚ)| < c2StateStuck.goal_tolerance_ ∧
      5 - c2StateStuck.last_movement_time_ > c2StateStuck.stall_timeout_ ∧
      (update c2StateStuck 5 10 7).rt_active_goal_ = some ⟨1, 0, 0⟩ ∧
      (update c2StateStuck 5 10 7).notifications = []) := by
  refine ⟨⟨by norm_num [c2StateNoGoal, abs_lt], ?_⟩,
    rfl, by norm_num [c2StateStuck, abs_lt], by norm_num [c2StateStuck],
    ?_, ?_⟩ <;>
    norm_num [update, check_for_success, c2StateNoGoal, c2StateStuck,
      abs_lt]

/-- C2 as amended: on an evaluation cycle with an ACTIVE goal that is not
yet within `goal_tolerance_`, if `|current_velocity|` exceeds the stall
velocity threshold then `last_movement_time_` is set to the cycle time and
the goal stays ACTIVE; if the velocity does not exceed the threshold and
`now - last_movement_time > stall_timeout` then the goal terminates that
cycle as stalled: it is detached and a terminal success notification with
`stalled = true` is enqueued. -/
theorem stall_detector_update_and_timeout (s : ControllerState) (g : Goal)
    (time current_position current_velocity : ℚ)
    (hg : s.rt_active_goal_ = some g)
    (hfar : ¬ |current_position - g.target_position_| < s.goal_tolerance_) :
    (|current_velocity| > s.stall_velocity_threshold_ →
      check_for_success s time (current_position - g.target_position_)
          current_position current_velocity =
        { s with last_movement_time_ := time }) ∧
    (¬ |current_velocity| > s.stall_velocity_threshold_ →
      time - s.last_movement_time_ > s.stall_timeout_ →
      check_for_success s time (current_position - g.target_position_)
          current_position current_velocity =
        { s with
          rt_active_goal_ := none
          notifications := s.notifications ++
            [⟨g.token, .succeeded,
              ⟨current_position, s.command_.max_effort_, false,
                true⟩⟩] }) := by
  rw [check_for_success_active s g time
    (current_position - g.target_position_) current_position
    current_velocity hg, if_neg hfar]
  exact ⟨fun hv => by rw [if_pos hv],
    fun hv ht => by rw [if_neg hv, if_pos ht]⟩

/-- Closed witness for the amended C2: the stuck state with zero velocity
at time 5 crosses the stall timeout and terminates stalled; with velocity
3 it records the movement instead. -/
theorem stall_detector_update_and_timeout_witness :
    (c2StateStuck.rt_active_goal_ = some ⟨1, 0, 0⟩ ∧
      ¬ |(10 : ℚ) - (0 : ℚ)| < c2StateStuck.goal_tolerance_ ∧
      ¬ |(0 : ℚ)| > c2StateStuck.stall_velocity_threshold_ ∧
      5 - c2StateStuck.last_movement_time_ > c2StateStuck.stall_timeout_) ∧
    check_for_success c2StateStuck 5 ((10 : ℚ) - (0 : ℚ)) 10 0 =
      { c2StateStuck with
        rt_active_goal_ := none
        notifications :=
          [⟨1, .succeeded,
            ⟨10, c2StateStuck.command_.max_effort_, false, true⟩⟩] } := by
  refine ⟨⟨rfl, by norm_num [c2StateStuck, abs_lt],
    by norm_num [c2StateStuck], by norm_num [c2StateStuck]⟩, ?_⟩
  exact (stall_detector_update_and_timeout c2StateStuck ⟨1, 0, 0⟩ 5 10 0
    rfl (by norm_num [c2StateStuck, abs_lt])).2
    (by norm_num [c2StateStuck]) (by norm_num [c2StateStuck])

/-- C4: accepting a new goal while goal A is ACTIVE cancels A (its
CANCELED notification is enqueued) before the new goal becomes the ACTIVE
one, resets the stall reference time to now, and writes the command slot
with the new target and max effort — the configured default standing in
when none is supplied — so the slot holds exactly the new goal's pair. -/
theorem preemption_installs_new_goal (s : ControllerState) (gA : Goal)
    (req : GoalRequest) (now : ℚ) (hA : s.rt_active_goal_ = some gA)
    (hfin : req.position.isFinite = true) :
    (submit_goal s req now).2 = .accepted ∧
    (submit_goal s req now).1.rt_active_goal_ =
      some ⟨req.token, req.position.toRat,
        req.max_effort.getD s.default_max_effort_⟩ ∧
    (submit_goal s req now).1.last_movement_time_ = now ∧
    (submit_goal s req now).1.command_ =
      ⟨req.position.toRat, req.max_effort.getD s.default_max_effort_⟩ ∧
    (submit_goal s req now).1.notifications =
      s.notifications ++
        [⟨gA.token, .canceled,
          ⟨s.command_.position_, s.command_.max_effort_, false,
            false⟩⟩] := by
  unfold submit_goal preempt_active_goal
  rw [hfin, hA]
  simp

/-- Closed witness for C4: preempting the active goal (token 1) of the
stuck state with a fresh request (token 42, finite target 2, effort 5)
is accepted. -/
theorem preemption_installs_new_goal_witness :
    (c2StateStuck.rt_active_goal_ = some ⟨1, 0, 0⟩ ∧
      (FloatVal.finite 2).isFinite = true) ∧
    (submit_goal c2StateStuck ⟨.finite 2, some 5, 42⟩ 3).2 = .accepted ∧
    (submit_goal c2StateStuck ⟨.finite 2, some 5, 42⟩
        3).1.rt_active_goal_ =
      some ⟨42, (FloatVal.finite 2).toRat,
        ((some 5 : Option ℚ)).getD c2StateStuck.default_max_effort_⟩ :=
  ⟨⟨rfl, rfl⟩,
    (preemption_installs_new_goal c2StateStuck ⟨1, 0, 0⟩
      ⟨.finite 2, some 5, 42⟩ 3 rfl rfl).1,
    (preemption_installs_new_goal c2StateStuck ⟨1, 0, 0⟩
      ⟨.finite 2, some 5, 42⟩ 3 rfl rfl).2.1⟩

/-- C5: cancelling the ACTIVE goal transitions it to CANCELED — it leaves
the active slot and its terminal notification is enqueued — and writes
the command slot with the currently observed position, so the next
hardware write commands the observed position, not the old target. -/
theorem cancel_active_goal_holds_position (s : ControllerState) (gA : Goal)
    (current_position : ℚ) (hA : s.rt_active_goal_ = some gA) :
    (cancel_goal s gA.token current_position).2 = .acknowledged ∧
    (cancel_goal s gA.token current_position).1.rt_active_goal_ = none ∧
    (cancel_goal s gA.token current_position).1.command_ =
      ⟨current_position, s.default_max_effort_⟩ ∧
    (cancel_goal s gA.token current_position).1.notifications =
      s.notifications ++
        [⟨gA.token, .canceled,
          ⟨current_position, s.default_max_effort_, false, false⟩⟩] := by
  unfold cancel_goal set_hold_position
  rw [hA]
  simp

/-- Closed witness for C5: cancelling the stuck state's active goal
(token 1) at observed position 4 is acknowledged and re-targets the slot
to position 4. -/
theorem cancel_active_goal_holds_position_witness :
    c2StateStuck.rt_active_goal_ = some ⟨1, 0, 0⟩ ∧
    (cancel_goal c2StateStuck (Goal.mk 1 0 0).token 4).2 =
      .acknowledged ∧
    (cancel_goal c2StateStuck (Goal.mk 1 0 0).token 4).1.command_ =
      ⟨4, c2StateStuck.default_max_effort_⟩ :=
  ⟨rfl,
    (cancel_active_goal_holds_position c2StateStuck ⟨1, 0, 0⟩ 4 rfl).1,
    (cancel_active_goal_holds_position c2StateStuck ⟨1, 0, 0⟩ 4
      rfl).2.2.1⟩

/-- C7: a goal request whose target position is non-finite is rejected
synchronously with the state — active goal slot, command slot,
notifications, stall state — left completely unchanged. -/
theorem nonfinite_goal_rejected (s : ControllerState) (req : GoalRequest)
    (now : ℚ) (h : req.position.isFinite = false) :
    submit_goal s req now = (s, .rejected) := by
  unfold submit_goal
  rw [h]
  simp

/-- Closed witness for C7: submitting NaN as the target is rejected and
leaves the no-goal state untouched. -/
theorem nonfinite_goal_rejected_witness :
    FloatVal.nan.isFinite = false ∧
    submit_goal c2StateNoGoal ⟨.nan, none, 7⟩ 0 =
      (c2StateNoGoal, .rejected) :=
  ⟨rfl, nonfinite_goal_rejected c2StateNoGoal ⟨.nan, none, 7⟩ 0 rfl⟩

/-- C8: a cancellation request whose token does not name the currently
ACTIVE goal (no goal is active, or a different goal is) returns not-found
and the whole controller state is unchanged. -/
theorem cancel_unknown_goal_noop (s : ControllerState) (token : ℕ)
    (current_position : ℚ)
    (h : ∀ g : Goal, s.rt_active_goal_ = some g → g.token ≠ token) :
    cancel_goal s token current_position = (s, .notFound) := by
  unfold cancel_goal
  cases hg : s.rt_active_goal_ with
  | none => rfl
  | some g => simp [h g hg]

/-- Closed witness for C8: cancelling token 9 while token 1 is active is
a not-found no-op. -/
theorem cancel_unknown_goal_noop_witness :
    (c2StateStuck.rt_active_goal_ = some ⟨1, 0, 0⟩ ∧
      (Goal.mk 1 0 0).token ≠ 9) ∧
    cancel_goal c2StateStuck 9 4 = (c2StateStuck, .notFound) :=
  ⟨⟨rfl, by decide⟩,
    cancel_unknown_goal_noop c2StateStuck 9 4 (by
      intro g hg
      rw [show c2StateStuck.rt_active_goal_ = some ⟨1, 0, 0⟩ from rfl]
        at hg
      cases hg
      decide)⟩

/-- C9: in the freshly activated state, before any goal or movement,
`last_movement_time_` is time zero — the header's in-class initializer
`rclcpp::Time(0, 0, RCL_ROS_TIME)` — whatever the configuration, and no
goal is active. -/
theorem initial_stall_time_is_zero (cfg : Config) (c0 : Commands) :
    (initState cfg c0).last_movement_time_ = 0 ∧
    (initState cfg c0).rt_active_goal_ = none ∧
    initial_last_movement_time = 0 :=
  ⟨rfl, rfl, rfl⟩

/-- Closed witness for C9 at a concrete configuration. -/
theorem initial_stall_time_is_zero_witness :
    (initState ⟨1, 1, 1, 1⟩ ⟨0, 0⟩).last_movement_time_ = 0 :=
  (initial_stall_time_is_zero ⟨1, 1, 1, 1⟩ ⟨0, 0⟩).1

/-- C10: for every controlled joint, the command interface configuration
names exactly the joint's position command interface — never its effort
or velocity interface — and the state interface configuration names
exactly the joint's position and velocity state interfaces. -/
theorem interface_configuration_exact (j : String) :
    (command_interface_configuration j).names = [⟨j, .position⟩] ∧
    (state_interface_configuration j).names =
      [⟨j, .position⟩, ⟨j, .velocity⟩] ∧
    InterfaceName.mk j .effort ∉
      (command_interface_configuration j).names ∧
    InterfaceName.mk j .velocity ∉
      (command_interface_configuration j).names := by
  refine ⟨rfl, rfl, ?_, ?_⟩ <;>
    simp [command_interface_configuration]

/-- Closed witness for C10 at a concrete joint name. -/
theorem interface_configuration_exact_witness :
    (command_interface_configuration "gripper_joint").names =
      [⟨"gripper_joint", .position⟩] ∧
    (state_interface_configuration "gripper_joint").names =
      [⟨"gripper_joint", .position⟩, ⟨"gripper_joint", .velocity⟩] :=
  ⟨(interface_configuration_exact "gripper_joint").1,
    (interface_configuration_exact "gripper_joint").2.1⟩

/-- The tracker invariant only depends on the notification queue and the
active-goal slot. -/
theorem trackerInv_of_eq (s s' : ControllerState) (subm acc : List ℕ)
    (hn : s'.notifications = s.notifications)
    (ha : s'.rt_active_goal_ = s.rt_active_goal_)
    (hinv : TrackerInv s subm acc) : TrackerInv s' subm acc := by
  unfold TrackerInv notifTokens at *
  rw [hn, ha]
  exact hinv

/-- The tracker invariant is monotone in the submitted-token list. -/
theorem trackerInv_mono (s : ControllerState) (subm subm' acc : List ℕ)
    (hsub : ∀ t ∈ subm, t ∈ subm') (hinv : TrackerInv s subm acc) :
    TrackerInv s subm' acc := by
  obtain ⟨h1, h2, h3, h4⟩ := hinv
  exact ⟨h1, fun t ht => hsub t (h2 t ht),
    fun g hg => ⟨hsub g.token (h3 g hg).1, (h3 g hg).2⟩, h4⟩

/-- Detaching the ACTIVE goal while enqueueing one terminal notification
for it preserves the tracker invariant: the detached goal's token was not
yet notified, so the queue stays duplicate-free, and the goal is now
accounted for by its notification. -/
theorem trackerInv_detach (s s' : ControllerState) (subm acc : List ℕ)
    (g : Goal) (st : GoalStatus) (r : GripperResult)
    (hg : s.rt_active_goal_ = some g)
    (hn : s'.notifications = s.notifications ++ [⟨g.token, st, r⟩])
    (ha : s'.rt_active_goal_ = none)
    (hinv : TrackerInv s subm acc) : TrackerInv s' subm acc := by
  obtain ⟨h1, h2, h3, h4⟩ := hinv
  obtain ⟨hgs, hgn⟩ := h3 g hg
  have hnt : notifTokens s' = notifTokens s ++ [g.token] := by
    unfold notifTokens
    rw [hn, List.map_append]
    rfl
  refine ⟨?_, ?_, ?_, ?_⟩
  · rw [hnt]
    refine h1.append (List.nodup_singleton _) ?_
    intro t ht hmem
    rw [List.mem_singleton] at hmem
    subst hmem
    exact hgn ht
  · intro t ht
    rw [hnt] at ht
    rcases List.mem_append.mp ht with ht | ht
    · exact h2 t ht
    · rw [List.mem_singleton] at ht
      subst ht
      exact hgs
  · intro g' hg'
    rw [ha] at hg'
    cases hg'
  · intro t ht
    rcases h4 t ht with htn | ⟨g', hg', htok⟩
    · left
      rw [hnt]
      exact List.mem_append_left _ htn
    · left
      rw [hg] at hg'
      have hgg : g' = g := (Option.some.inj hg').symm
      rw [hnt]
      apply List.mem_append_right
      rw [List.mem_singleton, ← htok, hgg]

/-- Installing a freshly submitted goal into an empty active slot
preserves the tracker invariant, extending the submitted and accepted
token lists with the fresh token. -/
theorem trackerInv_install (s s' : ControllerState) (subm acc : List ℕ)
    (tok : ℕ) (tp me : ℚ) (hfresh : tok ∉ subm)
    (hnone : s.rt_active_goal_ = none)
    (ha : s'.rt_active_goal_ = some ⟨tok, tp, me⟩)
    (hn : s'.notifications = s.notifications)
    (hinv : TrackerInv s subm acc) :
    TrackerInv s' (subm ++ [tok]) (acc ++ [tok]) := by
  obtain ⟨h1, h2, h3, h4⟩ := hinv
  have hnt : notifTokens s' = notifTokens s := by
    unfold notifTokens
    rw [hn]
  refine ⟨?_, ?_, ?_, ?_⟩
  · rw [hnt]
    exact h1
  · intro t ht
    rw [hnt] at ht
    exact List.mem_append_left _ (h2 t ht)
  · intro g' hg'
    rw [ha] at hg'
    have hgg : g' = ⟨tok, tp, me⟩ := (Option.some.inj hg').symm
    subst hgg
    refine ⟨List.mem_append_right _ (List.mem_singleton.mpr rfl), ?_⟩
    rw [hnt]
    intro hmem
    exact hfresh (h2 _ hmem)
  · intro t ht
    rcases List.mem_append.mp ht with ht | ht
    · rcases h4 t ht with htn | ⟨g', hg', htok⟩
      · left
        rw [hnt]
        exact htn
      · rw [hnone] at hg'
        cases hg'
    · rw [List.mem_singleton] at ht
      exact Or.inr ⟨⟨tok, tp, me⟩, ha, ht.symm⟩

/-- One controller event preserves the tracker invariant, provided a
submitted token is fresh. -/
theorem trackerInv_step (s : ControllerState) (subm acc : List ℕ)
    (e : Event) (hinv : TrackerInv s subm acc)
    (hfresh : ∀ req now, e = .submit req now → req.token ∉ subm) :
    TrackerInv (step s e) (subm ++ submittedTokens [e])
      (acc ++ acceptedTokens [e]) := by
  cases e with
  | submit req now =>
    have hf := hfresh req now rfl
    by_cases hfin : req.position.isFinite
    · have hsub : submittedTokens [Event.submit req now] = [req.token] := by
        simp [submittedTokens]
      have hacc : acceptedTokens [Event.submit req now] = [req.token] := by
        simp [acceptedTokens, hfin]
      rw [hsub, hacc]
      have hinv1 : TrackerInv (preempt_active_goal s) subm acc := by
        cases hact : s.rt_active_goal_ with
        | none =>
          refine trackerInv_of_eq s _ subm acc ?_ ?_ hinv <;>
            simp [preempt_active_goal, hact]
        | some g =>
          refine trackerInv_detach s _ subm acc g .canceled
            ⟨s.command_.position_, s.command_.max_effort_, false, false⟩
            hact ?_ ?_ hinv <;>
            simp [preempt_active_goal, hact]
      have h1none : (preempt_active_goal s).rt_active_goal_ = none := by
        cases hact : s.rt_active_goal_ with
        | none => simp [preempt_active_goal, hact]
        | some g => simp [preempt_active_goal, hact]
      refine trackerInv_install (preempt_active_goal s) _ subm acc
        req.token req.position.toRat
        (req.max_effort.getD s.default_max_effort_) hf h1none ?_ ?_ hinv1
      · simp [step, submit_goal, hfin]
      · simp [step, submit_goal, hfin]
    · have hstep : step s (.submit req now) = s := by
        simp [step, submit_goal, hfin]
      have hsub : submittedTokens [Event.submit req now] = [req.token] := by
        simp [submittedTokens]
      have hacc : acceptedTokens [Event.submit req now] = [] := by
        simp [acceptedTokens, hfin]
      rw [hstep, hsub, hacc, List.append_nil]
      exact trackerInv_mono s subm _ acc
        (fun t ht => List.mem_append_left _ ht) hinv
  | cancel token pos =>
    have hsub : submittedTokens [Event.cancel token pos] = [] := by
      simp [submittedTokens]
    have hacc : acceptedTokens [Event.cancel token pos] = [] := by
      simp [acceptedTokens]
    rw [hsub, hacc, List.append_nil, List.append_nil]
    cases hact : s.rt_active_goal_ with
    | none =>
      have hstep : step s (.cancel token pos) = s := by
        simp [step, cancel_goal, hact]
      rw [hstep]
      exact hinv
    | some g =>
      by_cases htok : g.token = token
      · refine trackerInv_detach s _ subm acc g .canceled
          ⟨pos, s.default_max_effort_, false, false⟩ hact ?_ ?_ hinv <;>
          simp [step, cancel_goal, set_hold_position, hact, htok]
      · have hstep : step s (.cancel token pos) = s := by
          simp [step, cancel_goal, hact, htok]
        rw [hstep]
        exact hinv
  | cycle t p v =>
    have hsub : submittedTokens [Event.cycle t p v] = [] := by
      simp [submittedTokens]
    have hacc : acceptedTokens [Event.cycle t p v] = [] := by
      simp [acceptedTokens]
    rw [hsub, hacc, List.append_nil, List.append_nil]
    cases hact : s.rt_active_goal_ with
    | none =>
      have hstep : step s (.cycle t p v) = s := by
        simp [step, update, check_for_success, hact]
      rw [hstep]
      exact hinv
    | some g =>
      have hstep : step s (.cycle t p v) =
          check_for_success s t (p - s.command_.position_) p v := rfl
      rw [hstep,
        check_for_success_active s g t (p - s.command_.position_) p v hact]
      by_cases h1 : |p - s.command_.position_| < s.goal_tolerance_
      · rw [if_pos h1]
        exact trackerInv_detach s _ subm acc g .succeeded
          ⟨p, s.command_.max_effort_, true, false⟩ hact rfl rfl hinv
      · rw [if_neg h1]
        by_cases h2 : |v| > s.stall_velocity_threshold_
        · rw [if_pos h2]
          exact trackerInv_of_eq s _ subm acc rfl rfl hinv
        · rw [if_neg h2]
          by_cases h3 : t - s.last_movement_time_ > s.stall_timeout_
          · rw [if_pos h3]
            exact trackerInv_detach s _ subm acc g .succeeded
              ⟨p, s.command_.max_effort_, false, true⟩ hact rfl rfl hinv
          · rw [if_neg h3]
            exact hinv

/-- Splitting an event list's submitted tokens at its head. -/
theorem submittedTokens_cons (e : Event) (es : List Event) :
    submittedTokens (e :: es) =
      submittedTokens [e] ++ submittedTokens es := by
  cases e <;> simp [submittedTokens]

/-- Splitting an event list's accepted tokens at its head. -/
theorem acceptedTokens_cons (e : Event) (es : List Event) :
    acceptedTokens (e :: es) = acceptedTokens [e] ++ acceptedTokens es := by
  cases e with
  | submit req now =>
    simp only [acceptedTokens]
    split_ifs <;> simp
  | cancel token pos => simp [acceptedTokens]
  | cycle t p v => simp [acceptedTokens]

/-- Running an event list one event at a time. -/
theorem run_cons (s : ControllerState) (e : Event) (es : List Event) :
    run s (e :: es) = run (step s e) es := rfl

/-- The tracker invariant is preserved by any event sequence whose
submitted tokens, together with those already seen, are pairwise
distinct. -/
theorem trackerInv_run (es : List Event) :
    ∀ (s : ControllerState) (subm acc : List ℕ), TrackerInv s subm acc →
      (subm ++ submittedTokens es).Nodup →
      TrackerInv (run s es) (subm ++ submittedTokens es)
        (acc ++ acceptedTokens es) := by
  induction es with
  | nil =>
    intro s subm acc hinv _
    simpa [run, submittedTokens, acceptedTokens] using hinv
  | cons e es ih =>
    intro s subm acc hinv hnd
    rw [run_cons, submittedTokens_cons, acceptedTokens_cons,
      ← List.append_assoc, ← List.append_assoc]
    have hfresh : ∀ req now, e = .submit req now → req.token ∉ subm := by
      intro req now he hmem
      subst he
      rw [submittedTokens_cons] at hnd
      have hd := List.disjoint_of_nodup_append hnd
      exact hd hmem (List.mem_append_left _ (by simp [submittedTokens]))
    have h1 := trackerInv_step s subm acc e hinv hfresh
    refine ih (step s e) (subm ++ submittedTokens [e])
      (acc ++ acceptedTokens [e]) h1 ?_
    rw [List.append_assoc]
    rw [submittedTokens_cons] at hnd
    exact hnd

/-- C3: over every sequence of goal submissions, cancellations and
control cycles with pairwise distinct submission tokens, each token
receives at most one terminal notification — once a goal has left the
ACTIVE slot no further terminal classification of it is possible — and
every accepted goal is either already notified exactly once or still the
ACTIVE goal (its single notification still to come). -/
theorem terminal_notification_at_most_once (cfg : Config) (c0 : Commands)
    (es : List Event) (hnd : (submittedTokens es).Nodup) :
    (∀ t : ℕ, List.count t (notifTokens (run (initState cfg c0) es)) ≤ 1) ∧
    (∀ t ∈ acceptedTokens es,
      t ∈ notifTokens (run (initState cfg c0) es) ∨
        ∃ g : Goal, (run (initState cfg c0) es).rt_active_goal_ = some g ∧
          g.token = t) := by
  have h0 : TrackerInv (initState cfg c0) [] [] := by
    refine ⟨?_, ?_, ?_, ?_⟩ <;> simp [initState, notifTokens]
  have h := trackerInv_run es (initState cfg c0) [] [] h0
    (by simpa using hnd)
  rw [List.nil_append, List.nil_append] at h
  obtain ⟨h1, _, _, h4⟩ := h
  exact ⟨fun t => List.nodup_iff_count_le_one.mp h1 t, h4⟩

/-- Closed witness for C3: a run that accepts goal token 1 and completes
it on the next cycle notifies token 1 at most once. -/
theorem terminal_notification_at_most_once_witness :
    (submittedTokens
      [Event.submit ⟨.finite 0, some 5, 1⟩ 0,
        Event.cycle 1 (1 / 100) 0]).Nodup ∧
    List.count 1 (notifTokens
      (run (initState ⟨1, 0, 5, 1⟩ ⟨0, 5⟩)
        [Event.submit ⟨.finite 0, some 5, 1⟩ 0,
          Event.cycle 1 (1 / 100) 0])) ≤ 1 :=
  ⟨by simp [submittedTokens],
    (terminal_notification_at_most_once ⟨1, 0, 5, 1⟩ ⟨0, 5⟩
      [Event.submit ⟨.finite 0, some 5, 1⟩ 0, Event.cycle 1 (1 / 100) 0]
      (by simp [submittedTokens])).1 1⟩

end GripperActionController
